import Mathlib

/- Shallow embedding of the asr-llm-tts voice-call pipeline (main.py, session.py,
   utils.py).  Pure fragments of the Python source are translated into Lean
   functions; the effects of the external collaborators (file system, ffmpeg,
   Whisper, the LLM streaming endpoint, TTS, Twilio) are passed in explicitly as
   oracle parameters whose `Except` results model the success/raise behaviour of
   the corresponding network or OS call.  The asyncio lock that guards
   `Session._process_turn` is modelled as a small labelled transition system. -/

namespace AsrPipeline

/- ---------------------------------------------------------------------------
   Python string helpers: `str.split()` (whitespace word count) and the
   emptiness of `str.strip()`, as used in `session.py` lines 97 and 142.
   --------------------------------------------------------------------------- -/

/-- Whitespace characters recognised by Python's default `str.split` /
`str.strip` on the ASCII texts this pipeline handles. -/
def pyIsSpace (c : Char) : Bool :=
  c = ' ' || c = '\t' || c = '\n' || c = '\r' || c = '\x0b' || c = '\x0c'

/-- Counts maximal runs of non-whitespace characters; the Boolean argument
records whether the previous character belonged to a word. -/
def wordCountAux : List Char → Bool → Nat
  | [], _ => 0
  | c :: cs, inWord =>
    if pyIsSpace c then wordCountAux cs false
    else (if inWord then 0 else 1) + wordCountAux cs true

/-- Length of Python's `s.split()`: the number of whitespace-separated words. -/
def wordCount (s : String) : Nat := wordCountAux s.data false

/-- Truth value of Python's `s.strip()` used as a condition: `true` iff the
string contains at least one non-whitespace character. -/
def stripNonempty (s : String) : Bool := s.data.any (fun c => ! pyIsSpace c)

/- ---------------------------------------------------------------------------
   utils.decode_twilio_media_frame: `base64.b64decode(payload_b64)`.
   CPython's `b64decode` (with `validate=False`) discards characters outside
   the base64 alphabet, then raises `binascii.Error` when the remaining data
   is not a whole number of 4-character groups; otherwise it decodes groups of
   four 6-bit values into bytes, honouring `=` padding.  Failure is modelled
   as `none`.
   --------------------------------------------------------------------------- -/

/-- Value of a base64 alphabet character, `none` for every other character. -/
def b64val (c : Char) : Option Nat :=
  if 'A' ≤ c && c ≤ 'Z' then some (c.toNat - 65)
  else if 'a' ≤ c && c ≤ 'z' then some (c.toNat - 97 + 26)
  else if '0' ≤ c && c ≤ '9' then some (c.toNat - 48 + 52)
  else if c = '+' then some 62
  else if c = '/' then some 63
  else none

/-- Characters kept by the decoder: alphabet characters and the pad `=`. -/
def b64relevant (s : List Char) : List Char :=
  s.filter (fun c => (b64val c).isSome || c = '=')

/-- Decodes one 4-character base64 group into 1–3 bytes, `none` when the group
is malformed. -/
def b64group (c1 c2 c3 c4 : Char) : Option (List Nat) :=
  match b64val c1, b64val c2 with
  | some v1, some v2 =>
    if c3 = '=' then
      if c4 = '=' then some [v1 * 4 + v2 / 16] else none
    else
      match b64val c3 with
      | some v3 =>
        if c4 = '=' then some [v1 * 4 + v2 / 16, v2 % 16 * 16 + v3 / 4]
        else
          match b64val c4 with
          | some v4 => some [v1 * 4 + v2 / 16, v2 % 16 * 16 + v3 / 4, v3 % 4 * 64 + v4]
          | none => none
      | none => none
  | _, _ => none

/-- Decodes a list of 4-character groups; a leftover of 1–3 characters is a
padding error. -/
def b64groups : List Char → Option (List Nat)
  | [] => some []
  | c1 :: c2 :: c3 :: c4 :: rest =>
    match b64group c1 c2 c3 c4, b64groups rest with
    | some bs, some rs => some (bs ++ rs)
    | _, _ => none
  | _ => none

/-- Model of `base64.b64decode`: `none` models a raised `binascii.Error`. -/
def b64decode (s : String) : Option (List Nat) :=
  let d := b64relevant s.data
  if d.length % 4 = 0 then b64groups d else none

/-- utils.py line 35: `decode_twilio_media_frame` is `base64.b64decode` on the
payload string. -/
def decode_twilio_media_frame (payload : String) : Option (List Nat) :=
  b64decode payload

/- ---------------------------------------------------------------------------
   utils.is_speech_present (utils.py lines 67–76).
   `frame_bytes = int(8000 * (30 / 1000.0) * 2) = 480`.  The WebRTC VAD call
   may raise; the surrounding `try/except` turns any raise into `False`.  The
   VAD itself is external, so it is an oracle `List Nat → Except Unit Bool`.
   --------------------------------------------------------------------------- -/

/-- Bytes in one 30 ms frame at 8 kHz, 16-bit mono: `int(8000 * 0.03 * 2)`. -/
def FRAME_BYTES : Nat := 480

/-- utils.py `is_speech_present`: short inputs yield `false`; otherwise the
first 480 bytes are classified by the external VAD, any raise yielding
`false`. -/
def is_speech_present (vad : List Nat → Except Unit Bool) (pcm : List Nat) : Bool :=
  if pcm.length < FRAME_BYTES then false
  else
    match vad (pcm.take FRAME_BYTES) with
    | .ok b => b
    | .error _ => false

/- ---------------------------------------------------------------------------
   utils.transcribe_wav (utils.py lines 80–94): the HTTP POST to the Whisper
   endpoint either raises in transport (modelled `transportFail`) or returns a
   status and the `text` field of the JSON body.  On a non-200 status the
   function raises BEFORE the `os.remove(wav_path)` line; on success the
   removal is attempted inside `try/except: pass`.
   --------------------------------------------------------------------------- -/

/-- Outcome of the `requests.post` call made by `transcribe_wav`. -/
inductive HttpResult
  | transportFail
  | response (status : Nat) (text : String)
  deriving Repr

/-- Observable outcome of `transcribe_wav`: the returned transcript or a raise,
together with whether the temporary WAV file was deleted. -/
structure TranscribeOutcome where
  result : Except Unit String
  wavDeleted : Bool

/-- utils.py `transcribe_wav`, with the HTTP call and the success of
`os.remove` as oracles. -/
def transcribe_wav (post : HttpResult) (removeOk : Bool) : TranscribeOutcome :=
  match post with
  | .transportFail => { result := .error (), wavDeleted := false }
  | .response status text =>
    if status ≠ 200 then { result := .error (), wavDeleted := false }
    else { result := .ok text, wavDeleted := removeOk }

/- ---------------------------------------------------------------------------
   Session data model (session.py lines 40–50).
   --------------------------------------------------------------------------- -/

/-- Role tag of a conversation-history entry. -/
inductive Role
  | user
  | assistant
  deriving DecidableEq, Repr

/-- One `{"role": ..., "content": ...}` entry of `conversation_history`. -/
structure HistEntry where
  role : Role
  content : String
  deriving DecidableEq, Repr

/-- Mutable per-call state of `Session`: the PCM buffer, the `processing`
flag, the conversation history and `last_voice_ts`. -/
structure SessionState where
  buffer : List Nat
  processing : Bool
  history : List HistEntry
  lastVoiceTs : Option Nat
  deriving DecidableEq, Repr

/-- State of a freshly constructed `Session` (session.py `__init__`). -/
def freshSessionState : SessionState :=
  { buffer := [], processing := false, history := [], lastVoiceTs := none }

/- ---------------------------------------------------------------------------
   Session._process_turn (session.py lines 77–170), the body that runs under
   the per-session asyncio lock.  External effects are oracles:
   - `saveWav` models `save_raw_pcm_to_wav` (file writes plus ffmpeg; may
     raise, returns the WAV path);
   - `transcribe` models `transcribe_wav` (may raise, returns the transcript);
   - `gen` models the streaming chat-completions POST: the request may be
     rejected (non-200 or transport error) before any delta arrives, or it
     yields a finite list of deltas, optionally followed by a mid-stream
     raise;
   - `synth` models `synthesize_tts` (may raise, returns the MP3 filename);
   - `play` models `twilio_redirect_play` (may raise).
   --------------------------------------------------------------------------- -/

/-- Outcome of the streaming generation request in `_process_turn`. -/
inductive GenOutcome
  | requestFail
  | stream (deltas : List String) (midFail : Bool)

/-- The external effects consumed by one turn execution. -/
structure TurnOracles where
  saveWav : List Nat → Except Unit String
  transcribe : String → Except Unit String
  gen : GenOutcome
  synth : String → Except Unit String
  play : String → Except Unit Unit

/-- `try: text = transcribe_wav(...) except: text = ""` — the effective
transcript after the exception handler of session.py lines 90–94. -/
def textOf : Except Unit String → String
  | .ok t => t
  | .error _ => ""

/-- One chunked synthesis-plus-playback attempt (session.py lines 143–148 and
153–158): `synthesize_tts` then `twilio_redirect_play`, any raise being caught
and logged.  Returns whether the chunk was actually played. -/
def synthPlayAttempt (o : TurnOracles) (txt : String) : Bool :=
  match o.synth txt with
  | .error _ => false
  | .ok _ =>
    match o.play txt with
    | .ok _ => true
    | .error _ => false

/-- Accumulators of the delta loop: `response_text`, `partial_text`, the texts
submitted to TTS, and the texts actually synthesized and dispatched. -/
structure StreamAcc where
  response : String
  pendingText : String
  synthCalls : List String
  played : List String
  deriving DecidableEq, Repr

/-- Body of `for line in r.iter_lines(...)` for one delta (session.py lines
138–149): empty deltas are skipped (`if delta:`); otherwise the delta extends
both accumulators, and once the pending text holds at least `minWords` words
it is submitted to TTS/playback (failures swallowed) and reset. -/
def streamStep (o : TurnOracles) (minWords : Nat) (acc : StreamAcc) (delta : String) :
    StreamAcc :=
  if delta = "" then acc
  else
    let resp := acc.response ++ delta
    let pend := acc.pendingText ++ delta
    if minWords ≤ wordCount pend then
      { response := resp
        pendingText := ""
        synthCalls := acc.synthCalls ++ [pend]
        played := acc.played ++ (if synthPlayAttempt o pend then [pend] else []) }
    else
      { acc with response := resp, pendingText := pend }

/-- The whole delta loop over the generation stream. -/
def runStream (o : TurnOracles) (minWords : Nat) (deltas : List String) : StreamAcc :=
  deltas.foldl (streamStep o minWords) { response := "", pendingText := "", synthCalls := [], played := [] }

/-- The apology string assigned on a generation failure (session.py line 165);
it is only logged, never synthesized. -/
def apologyText : String := "Lo siento, ha ocurrido un error procesando tu peticion."

/-- Observable outcome of one `_process_turn` execution. -/
structure TurnOutput where
  state : SessionState
  synthCalls : List String
  played : List String
  genInvoked : Bool
  loggedReply : Option String
  raised : Bool
  deriving DecidableEq, Repr

/-- session.py `_process_turn` body (the code inside `async with self.lock`),
lines 79–170.  `minWords` is the `min_words_per_chunk` constant, 5 in the
source.  Note that the call to `save_raw_pcm_to_wav` at line 85 sits outside
every `try`: when it raises, the exception escapes `_process_turn`
(`raised := true`) with `processing` still `true` and the buffer intact. -/
def processTurnBody (o : TurnOracles) (minWords : Nat) (s0 : SessionState) : TurnOutput :=
  let s1 : SessionState := { s0 with processing := true }
  if s1.buffer.length = 0 then
    { state := { s1 with processing := false }, synthCalls := [], played := []
      genInvoked := false, loggedReply := none, raised := false }
  else
    match o.saveWav s1.buffer with
    | .error _ =>
      { state := s1, synthCalls := [], played := []
        genInvoked := false, loggedReply := none, raised := true }
    | .ok wavPath =>
      let s2 : SessionState := { s1 with buffer := [] }
      let text := textOf (o.transcribe wavPath)
      if stripNonempty text then
        let s3 : SessionState := { s2 with history := s2.history ++ [{ role := Role.user, content := text }] }
        match o.gen with
        | .requestFail =>
          { state := { s3 with processing := false }, synthCalls := [], played := []
            genInvoked := true, loggedReply := some apologyText, raised := false }
        | .stream deltas midFail =>
          let acc := runStream o minWords deltas
          if midFail then
            { state := { s3 with processing := false }
              synthCalls := acc.synthCalls, played := acc.played
              genInvoked := true, loggedReply := some apologyText, raised := false }
          else
            let acc2 :=
              if stripNonempty acc.pendingText then
                { acc with
                    synthCalls := acc.synthCalls ++ [acc.pendingText]
                    played := acc.played ++
                      (if synthPlayAttempt o acc.pendingText then [acc.pendingText] else []) }
              else acc
            { state := { s3 with
                history := s3.history ++ [{ role := Role.assistant, content := acc.response }]
                processing := false }
              synthCalls := acc2.synthCalls, played := acc2.played
              genInvoked := true, loggedReply := some acc.response, raised := false }
      else
        { state := { s2 with processing := false }, synthCalls := [], played := []
          genInvoked := false, loggedReply := none, raised := false }

/- ---------------------------------------------------------------------------
   Session.on_message (session.py lines 53–74) and the media_ws handler
   (main.py lines 54–71).
   --------------------------------------------------------------------------- -/

/-- The byte threshold `16000 * 2 * (CHUNK_MS / 1000.0)`; with `CHUNK_MS = 800`
the Python float expression evaluates to exactly `25600.0`. -/
def BUFFER_TRIGGER_BYTES : Nat := 25600

/-- The `min_words_per_chunk` constant hard-coded at session.py line 110. -/
def MIN_WORDS_PER_CHUNK : Nat := 5

/-- The media branch of `on_message` after a successful frame decode
(session.py lines 59–70): append the PCM to the buffer, update
`last_voice_ts` when speech is detected, and report whether a turn-processing
task was scheduled (`asyncio.create_task(self._process_turn())`). -/
def onMediaPcm (vad : List Nat → Except Unit Bool) (now : Nat) (s : SessionState)
    (pcm : List Nat) : SessionState × Bool :=
  let s' : SessionState :=
    { s with
        buffer := s.buffer ++ pcm
        lastVoiceTs := if is_speech_present vad pcm then some now else s.lastVoiceTs }
  if BUFFER_TRIGGER_BYTES ≤ s'.buffer.length ∧ s'.processing = false then (s', true)
  else (s', false)

/-- A Twilio stream message after JSON parsing: `event` is `media` (with the
base64 payload), `stop`, or anything else (ignored). -/
inductive TwilioMsg
  | media (payload : String)
  | stop
  | other
  deriving Repr

/-- session.py `on_message`: the `media` branch decodes the payload (a decode
raise propagates out as `.error`), the `stop` branch awaits a full
`_process_turn` (whose own raise also propagates), other events do nothing.
The Boolean reports whether a size-triggered task was scheduled. -/
def onMessage (vad : List Nat → Except Unit Bool) (o : TurnOracles) (now : Nat)
    (s : SessionState) (m : TwilioMsg) : Except Unit (SessionState × Bool) :=
  match m with
  | .media payload =>
    match decode_twilio_media_frame payload with
    | none => .error ()
    | some pcm => .ok (onMediaPcm vad now s pcm)
  | .stop =>
    let out := processTurnBody o MIN_WORDS_PER_CHUNK s
    if out.raised then .error () else .ok (out.state, false)
  | .other => .ok (s, false)

/-- session.py `on_disconnect` (lines 173–175): one final awaited
`_process_turn`. -/
def on_disconnect (o : TurnOracles) (s : SessionState) : SessionState :=
  (processTurnBody o MIN_WORDS_PER_CHUNK s).state

/-- Result of one iteration of the `media_ws` receive loop of main.py: either
the loop continues with the new session state, or an exception was caught by
the handler, which then ran `on_disconnect` and ended the session. -/
inductive WsStepResult
  | active (s : SessionState) (scheduled : Bool)
  | torndown (s : SessionState)
  deriving DecidableEq, Repr

/-- main.py lines 59–71: `await session.on_message(data)` inside `try`; any
exception is caught, `session.on_disconnect()` runs, and the handler returns,
closing the websocket. -/
def media_ws_step (vad : List Nat → Except Unit Bool) (o : TurnOracles) (now : Nat)
    (s : SessionState) (m : TwilioMsg) : WsStepResult :=
  match onMessage vad o now s m with
  | .ok (s', sched) => .active s' sched
  | .error _ => .torndown (on_disconnect o s)

/-- Folds a sequence of already-decoded media frames through the media branch
of `on_message`, collecting the per-frame scheduling flags. -/
def runMedia (vad : List Nat → Except Unit Bool) :
    SessionState → List (List Nat) → SessionState × List Bool
  | s, [] => (s, [])
  | s, c :: rest =>
    let step := onMediaPcm vad 0 s c
    let next := runMedia vad step.1 rest
    (next.1, step.2 :: next.2)

/-- Total length of a list of PCM chunks. -/
def chunkTotal (chunks : List (List Nat)) : Nat := (chunks.map List.length).sum

/- ---------------------------------------------------------------------------
   SessionManager (session.py lines 179–191): a Python dict from call_sid to
   Session, with dict-assignment (replace) semantics.
   --------------------------------------------------------------------------- -/

/-- A `Session` object as stored in the manager: its constructor arguments
(the call sid and an identifier for the websocket object) plus the mutable
state initialised by `__init__`. -/
structure PySession where
  call_sid : String
  ws : Nat
  st : SessionState
  deriving DecidableEq, Repr

/-- `Session(call_sid, websocket)`: a freshly initialised session. -/
def mkSession (call_sid : String) (ws : Nat) : PySession :=
  { call_sid := call_sid, ws := ws, st := freshSessionState }

/-- Python dict assignment `d[k] = v` on an association list: replaces the
binding of `k` in place, or appends a new one. -/
def dictSet (l : List (String × PySession)) (k : String) (v : PySession) :
    List (String × PySession) :=
  match l with
  | [] => [(k, v)]
  | (k0, v0) :: rest =>
    if k0 = k then (k, v) :: rest else (k0, v0) :: dictSet rest k v

/-- Python dict lookup `d.get(k)`. -/
def dictGet (l : List (String × PySession)) (k : String) : Option PySession :=
  match l with
  | [] => none
  | (k0, v0) :: rest => if k0 = k then some v0 else dictGet rest k

/-- The `SessionManager.sessions` dict. -/
structure SessionManager where
  sessions : List (String × PySession)
  deriving DecidableEq, Repr

/-- session.py `create_session`: constructs a fresh `Session` and assigns it
into the dict unconditionally, returning it. -/
def create_session (m : SessionManager) (call_sid : String) (ws : Nat) :
    SessionManager × PySession :=
  let s := mkSession call_sid ws
  ({ sessions := dictSet m.sessions call_sid s }, s)

/-- session.py `get_session`: `self.sessions.get(call_sid)`. -/
def get_session (m : SessionManager) (call_sid : String) : Option PySession :=
  dictGet m.sessions call_sid

/- ---------------------------------------------------------------------------
   The per-session asyncio lock (session.py line 45) guarding the body of
   `_process_turn` (line 78), as a labelled transition system.  The three ways
   a turn execution is issued for one session — the size-triggered
   `asyncio.create_task`, the awaited `stop`-event call, and the awaited
   disconnect call — are the tasks; the asyncio event loop may interleave them
   at any suspension point, but `async with self.lock` admits a task into the
   body only when the lock is free, and the lock is released when the body
   exits.
   --------------------------------------------------------------------------- -/

/-- The three issuers of a `_process_turn` execution for one session. -/
inductive TurnIssuer
  | sizeTrigger
  | stopEvent
  | disconnect
  deriving DecidableEq, Repr

/-- Progress of one issued execution: not yet issued, awaiting the lock,
inside the body (having performed `k` suspension steps), or finished. -/
inductive TaskPhase
  | notIssued
  | waiting
  | inBody (k : Nat)
  | finished
  deriving DecidableEq, Repr

/-- Joint state of the session lock and the three potential executions. -/
structure LockModelState where
  lockOwner : Option TurnIssuer
  phase : TurnIssuer → TaskPhase

/-- Initially the lock is free and nothing has been issued. -/
def lockInit : LockModelState :=
  { lockOwner := none, phase := fun _ => TaskPhase.notIssued }

/-- Interleaving semantics: issuing a call, acquiring the free lock on entry
to `async with self.lock`, an internal suspension step of the body, and the
release of the lock when the body exits. -/
inductive LockStep : LockModelState → LockModelState → Prop
  | issue (s : LockModelState) (t : TurnIssuer) (h : s.phase t = TaskPhase.notIssued) :
      LockStep s { lockOwner := s.lockOwner, phase := Function.update s.phase t TaskPhase.waiting }
  | acquire (s : LockModelState) (t : TurnIssuer) (hw : s.phase t = TaskPhase.waiting)
      (hfree : s.lockOwner = none) :
      LockStep s { lockOwner := some t, phase := Function.update s.phase t (TaskPhase.inBody 0) }
  | work (s : LockModelState) (t : TurnIssuer) (k : Nat) (h : s.phase t = TaskPhase.inBody k) :
      LockStep s { lockOwner := s.lockOwner, phase := Function.update s.phase t (TaskPhase.inBody (k + 1)) }
  | finish (s : LockModelState) (t : TurnIssuer) (k : Nat) (h : s.phase t = TaskPhase.inBody k) :
      LockStep s { lockOwner := none, phase := Function.update s.phase t TaskPhase.finished }

/-- States reachable from the initial state by interleaved execution. -/
inductive LockReachable : LockModelState → Prop
  | init : LockReachable lockInit
  | step (s s' : LockModelState) : LockReachable s → LockStep s s' → LockReachable s'

/- ---------------------------------------------------------------------------
   Concrete oracle instantiations and auxiliary states used to exercise the
   model at specific inputs.
   --------------------------------------------------------------------------- -/

/-- A VAD oracle that never reports speech. -/
def vadNever : List Nat → Except Unit Bool := fun _ => .ok false

/-- An oracle set in which every external call succeeds, the transcript is
`"hello"`, and the generation stream yields `["Hi", " there", "!"]`. -/
def oracleAllOk : TurnOracles :=
  { saveWav := fun _ => .ok "tmp.wav"
    transcribe := fun _ => .ok "hello"
    gen := .stream ["Hi", " there", "!"] false
    synth := fun _ => .ok "out.mp3"
    play := fun _ => .ok () }

/-- Like `oracleAllOk` but `save_raw_pcm_to_wav` raises (disk or ffmpeg
failure). -/
def oracleSaveFail : TurnOracles :=
  { oracleAllOk with saveWav := fun _ => .error () }

/-- Like `oracleAllOk` but the transcription call raises. -/
def oracleTrFail : TurnOracles :=
  { oracleAllOk with transcribe := fun _ => .error () }

/-- Like `oracleAllOk` but the generation request itself is rejected. -/
def oracleGenFail : TurnOracles :=
  { oracleAllOk with gen := GenOutcome.requestFail }

/-- A session state holding one buffered byte. -/
def oneByteState : SessionState :=
  { buffer := [0], processing := false, history := [], lastVoiceTs := none }

/-- The scheduling decisions of a burst of media frames depend only on the
`processing` flag and the running buffer length; this pure recurrence mirrors
the trigger test of session.py lines 68–70. -/
def schedFlags : Bool → Nat → List Nat → List Bool
  | _, _, [] => []
  | proc, len, n :: ns =>
    (decide (BUFFER_TRIGGER_BYTES ≤ len + n) && !proc) :: schedFlags proc (len + n) ns

/-- Lock-model state where the size-triggered task has been issued. -/
def lockS1 : LockModelState :=
  { lockOwner := lockInit.lockOwner
    phase := Function.update lockInit.phase TurnIssuer.sizeTrigger TaskPhase.waiting }

/-- Lock-model state where the size-triggered task holds the lock and is
inside the turn body. -/
def lockS2 : LockModelState :=
  { lockOwner := some TurnIssuer.sizeTrigger
    phase := Function.update lockS1.phase TurnIssuer.sizeTrigger (TaskPhase.inBody 0) }

/-- A manager whose dict already maps `"CA1"` to a session created with
websocket identifier 7. -/
def managerWithCA1 : SessionManager :=
  { sessions := [("CA1", mkSession "CA1" 7)] }

/- ---------------------------------------------------------------------------
   Helper lemmas.
   --------------------------------------------------------------------------- -/

/-- In every reachable lock-model state, a task inside the turn body owns the
lock. -/
theorem lock_owner_of_inBody {s : LockModelState} (hr : LockReachable s) :
    ∀ t k, s.phase t = TaskPhase.inBody k → s.lockOwner = some t := by
  induction hr with
  | init =>
    intro t k h
    simp [lockInit] at h
  | step s s' hr hstep ih =>
    intro t k h
    cases hstep with
    | issue t0 h0 =>
      simp only [Function.update_apply] at h
      by_cases ht : t = t0
      · simp [ht] at h
      · rw [if_neg ht] at h
        exact ih t k h
    | acquire t0 hw hfree =>
      simp only [Function.update_apply] at h
      by_cases ht : t = t0
      · simp [ht]
      · rw [if_neg ht] at h
        have := ih t k h
        rw [hfree] at this
        exact absurd this (by simp)
    | work t0 k0 h0 =>
      simp only [Function.update_apply] at h
      by_cases ht : t = t0
      · subst ht
        exact ih t k0 h0
      · rw [if_neg ht] at h
        exact ih t k h
    | finish t0 k0 h0 =>
      simp only [Function.update_apply] at h
      by_cases ht : t = t0
      · simp [ht] at h
      · rw [if_neg ht] at h
        have h1 := ih t k h
        have h2 := ih t0 k0 h0
        rw [h1] at h2
        cases ht (Option.some.inj h2)

/- ---------------------------------------------------------------------------
   Claim theorems.
   --------------------------------------------------------------------------- -/

/-- C1: at most one turn-processing execution (`_process_turn` body) is active
per call session at any instant.  In every state of the lock model reachable
by interleaving the size-triggered task, the stop-event call and the
disconnect call, two executions simultaneously inside the lock-guarded body
are the same execution. -/
theorem C1_turn_mutual_exclusion {s : LockModelState} (hr : LockReachable s)
    (t1 t2 : TurnIssuer) (k1 k2 : Nat)
    (h1 : s.phase t1 = TaskPhase.inBody k1) (h2 : s.phase t2 = TaskPhase.inBody k2) :
    t1 = t2 := by
  have o1 := lock_owner_of_inBody hr t1 k1 h1
  have o2 := lock_owner_of_inBody hr t2 k2 h2
  rw [o1] at o2
  exact Option.some.inj o2

/-- Witness for C1: a concrete reachable state in which the size-triggered
execution is inside the body. -/
theorem C1_turn_mutual_exclusion_witness :
    TurnIssuer.sizeTrigger = TurnIssuer.sizeTrigger := by
  have hr1 : LockReachable lockS1 :=
    LockReachable.step lockInit lockS1 LockReachable.init
      (LockStep.issue lockInit TurnIssuer.sizeTrigger rfl)
  have hr2 : LockReachable lockS2 :=
    LockReachable.step lockS1 lockS2 hr1
      (LockStep.acquire lockS1 TurnIssuer.sizeTrigger
        (by simp [lockS1, lockInit, Function.update_same]) rfl)
  exact C1_turn_mutual_exclusion hr2 TurnIssuer.sizeTrigger TurnIssuer.sizeTrigger 0 0
    (by simp [lockS2, Function.update_same]) (by simp [lockS2, Function.update_same])

/-- C3 (code-bug evidence): when `save_raw_pcm_to_wav` raises on a non-empty
buffer, `_process_turn` propagates the exception with `processing` left
`true`, after which no size-based trigger can ever schedule a turn again,
because the `if not self.processing` guard fails for every later frame. -/
theorem C3_processing_flag_leak :
    (processTurnBody oracleSaveFail 5 oneByteState).raised = true ∧
    (processTurnBody oracleSaveFail 5 oneByteState).state.processing = true ∧
    ∀ pcm : List Nat,
      (onMediaPcm vadNever 0 (processTurnBody oracleSaveFail 5 oneByteState).state pcm).2 = false := by
  refine ⟨rfl, rfl, fun pcm => ?_⟩
  have hp : (processTurnBody oracleSaveFail 5 oneByteState).state.processing = true := rfl
  simp [onMediaPcm, hp]

/-- C4 (code-bug evidence): a media frame whose base64 payload is malformed
(payload `"a"`) makes the decode fail; the exception propagates out of
`on_message`, and the `media_ws` handler of main.py catches it and tears the
session down via `on_disconnect` instead of dropping the frame. -/
theorem C4_malformed_frame_teardown :
    decode_twilio_media_frame "a" = none ∧
    media_ws_step vadNever oracleAllOk 0 freshSessionState (TwilioMsg.media "a")
      = WsStepResult.torndown freshSessionState := by
  exact ⟨rfl, rfl⟩

/-- C7 (code-bug evidence): `transcribe_wav` raises before reaching
`os.remove(wav_path)` both on a non-200 response and on a transport error, so
the temporary WAV file is deleted only when the transcription call succeeds,
not when it fails. -/
theorem C7_wav_deleted_only_on_success :
    (transcribe_wav (HttpResult.response 500 "server error") true).wavDeleted = false ∧
    (transcribe_wav (HttpResult.response 500 "server error") true).result = Except.error () ∧
    (transcribe_wav HttpResult.transportFail true).wavDeleted = false ∧
    (transcribe_wav (HttpResult.response 200 "hola") true).wavDeleted = true ∧
    (transcribe_wav (HttpResult.response 200 "hola") true).result = Except.ok "hola" := by
  exact ⟨rfl, rfl, rfl, rfl, rfl⟩

/-- C2 (counterexample): with minimum word threshold 2 and the generation
stream `["Hi", " there", "!"]`, the turn performs two synthesis calls — the
chunk `"Hi there"` as soon as the threshold is reached mid-stream, then the
final flush `"!"` — not a single call with text `"Hi there!"`. -/
theorem C2_single_chunk_counterexample :
    (processTurnBody oracleAllOk 2 oneByteState).synthCalls = ["Hi there", "!"] ∧
    (processTurnBody oracleAllOk 2 oneByteState).synthCalls.length ≠ 1 := by
  exact ⟨rfl, by decide⟩

/-- C2 (amended): for a turn whose generation stream yields the deltas
`["Hi", " there", "!"]` in order, with minimum word threshold 2 and all
external calls succeeding, the turn performs exactly two synthesis-plus-
playback calls, with texts `"Hi there"` then `"!"` (their concatenation being
`"Hi there!"`), and appends exactly one `{role: user}` entry followed by
exactly one `{role: assistant}` entry (content `"Hi there!"`) to the history,
in that order. -/
theorem C2_roundtrip_two_chunks (h0 : List HistEntry) (b : List Nat) (hb : b.length ≠ 0) :
    (processTurnBody oracleAllOk 2
        { buffer := b, processing := false, history := h0, lastVoiceTs := none }).synthCalls
      = ["Hi there", "!"] ∧
    (processTurnBody oracleAllOk 2
        { buffer := b, processing := false, history := h0, lastVoiceTs := none }).played
      = ["Hi there", "!"] ∧
    (processTurnBody oracleAllOk 2
        { buffer := b, processing := false, history := h0, lastVoiceTs := none }).state.history
      = h0 ++ [{ role := Role.user, content := "hello" },
               { role := Role.assistant, content := "Hi there!" }] ∧
    (processTurnBody oracleAllOk 2
        { buffer := b, processing := false, history := h0, lastVoiceTs := none }).state.processing
      = false := by
  cases b with
  | nil => cases hb rfl
  | cons x xs =>
    refine ⟨rfl, rfl, ?_, rfl⟩
    show (h0 ++ [{ role := Role.user, content := "hello" }]) ++
        [{ role := Role.assistant, content := "Hi there!" }] = _
    simp

/-- Witness for the amended C2 at a concrete history and buffer. -/
theorem C2_roundtrip_two_chunks_witness :
    (processTurnBody oracleAllOk 2
        { buffer := [0], processing := false, history := [], lastVoiceTs := none }).synthCalls
      = ["Hi there", "!"] ∧
    (processTurnBody oracleAllOk 2
        { buffer := [0], processing := false, history := [], lastVoiceTs := none }).played
      = ["Hi there", "!"] ∧
    (processTurnBody oracleAllOk 2
        { buffer := [0], processing := false, history := [], lastVoiceTs := none }).state.history
      = [] ++ [{ role := Role.user, content := "hello" },
               { role := Role.assistant, content := "Hi there!" }] ∧
    (processTurnBody oracleAllOk 2
        { buffer := [0], processing := false, history := [], lastVoiceTs := none }).state.processing
      = false :=
  C2_roundtrip_two_chunks [] [0] (by decide)

/-- C5: whenever the transcription call raises, or yields an empty or
whitespace-only transcript, the turn aborts back to idle: the history is
unchanged, the generation client is never invoked, and no synthesis or
playback call is made. -/
theorem C5_empty_transcript_aborts (o : TurnOracles) (m : Nat) (s : SessionState) (w : String)
    (hbuf : s.buffer.length ≠ 0) (hsave : o.saveWav s.buffer = Except.ok w)
    (htr : stripNonempty (textOf (o.transcribe w)) = false) :
    (processTurnBody o m s).state.history = s.history ∧
    (processTurnBody o m s).genInvoked = false ∧
    (processTurnBody o m s).synthCalls = [] ∧
    (processTurnBody o m s).played = [] ∧
    (processTurnBody o m s).state.processing = false ∧
    (processTurnBody o m s).raised = false := by
  simp [processTurnBody, hbuf, hsave, htr]

/-- Witness for C5: a turn whose transcription call raises. -/
theorem C5_empty_transcript_aborts_witness :
    (processTurnBody oracleTrFail 5 oneByteState).state.history = oneByteState.history ∧
    (processTurnBody oracleTrFail 5 oneByteState).genInvoked = false ∧
    (processTurnBody oracleTrFail 5 oneByteState).synthCalls = [] ∧
    (processTurnBody oracleTrFail 5 oneByteState).played = [] ∧
    (processTurnBody oracleTrFail 5 oneByteState).state.processing = false ∧
    (processTurnBody oracleTrFail 5 oneByteState).raised = false :=
  C5_empty_transcript_aborts oracleTrFail 5 oneByteState "tmp.wav" (by decide) rfl (by decide)

/-- C9: when the generation request itself is rejected (non-200 status or
transport error), the history keeps the already-appended user entry and gains
no assistant entry, no synthesis or playback call is made, and the fallback
apology text is only logged. -/
theorem C9_generation_request_failure (o : TurnOracles) (m : Nat) (s : SessionState)
    (w t : String) (hbuf : s.buffer.length ≠ 0) (hsave : o.saveWav s.buffer = Except.ok w)
    (htr : o.transcribe w = Except.ok t) (ht : stripNonempty t = true)
    (hgen : o.gen = GenOutcome.requestFail) :
    (processTurnBody o m s).state.history = s.history ++ [{ role := Role.user, content := t }] ∧
    (processTurnBody o m s).synthCalls = [] ∧
    (processTurnBody o m s).played = [] ∧
    (processTurnBody o m s).loggedReply = some apologyText ∧
    (processTurnBody o m s).state.processing = false := by
  simp [processTurnBody, hbuf, hsave, htr, textOf, ht, hgen]

/-- Witness for C9: a turn whose generation request is rejected. -/
theorem C9_generation_request_failure_witness :
    (processTurnBody oracleGenFail 5 oneByteState).state.history
      = oneByteState.history ++ [{ role := Role.user, content := "hello" }] ∧
    (processTurnBody oracleGenFail 5 oneByteState).synthCalls = [] ∧
    (processTurnBody oracleGenFail 5 oneByteState).played = [] ∧
    (processTurnBody oracleGenFail 5 oneByteState).loggedReply = some apologyText ∧
    (processTurnBody oracleGenFail 5 oneByteState).state.processing = false :=
  C9_generation_request_failure oracleGenFail 5 oneByteState "tmp.wav" "hello"
    (by decide) rfl rfl (by decide) rfl

/-- A media frame leaves the `processing` flag untouched. -/
theorem onMediaPcm_fst_processing (vad : List Nat → Except Unit Bool) (now : Nat)
    (s : SessionState) (pcm : List Nat) :
    (onMediaPcm vad now s pcm).1.processing = s.processing := by
  simp only [onMediaPcm]
  split <;> rfl

/-- A media frame appends its PCM to the buffer. -/
theorem onMediaPcm_fst_buffer (vad : List Nat → Except Unit Bool) (now : Nat)
    (s : SessionState) (pcm : List Nat) :
    (onMediaPcm vad now s pcm).1.buffer = s.buffer ++ pcm := by
  simp only [onMediaPcm]
  split <;> rfl

/-- The scheduling decision of a media frame depends only on the new buffer
length and the `processing` flag. -/
theorem onMediaPcm_snd (vad : List Nat → Except Unit Bool) (now : Nat) (s : SessionState)
    (pcm : List Nat) :
    (onMediaPcm vad now s pcm).2
      = (decide (BUFFER_TRIGGER_BYTES ≤ s.buffer.length + pcm.length) && !s.processing) := by
  simp only [onMediaPcm]
  by_cases h1 : BUFFER_TRIGGER_BYTES ≤ s.buffer.length + pcm.length
  · by_cases h2 : s.processing = false
    · rw [if_pos ⟨by simpa [List.length_append] using h1, h2⟩]
      simp [h1, h2]
    · have hp : s.processing = true := by
        cases hsp : s.processing
        · exact absurd hsp h2
        · rfl
      rw [if_neg (fun hc => h2 hc.2)]
      simp [h1, hp]
  · rw [if_neg (fun hc => h1 (by simpa [List.length_append] using hc.1))]
    simp [h1]

/-- The scheduling flags of a burst of frames equal the pure recurrence
`schedFlags` over the chunk lengths. -/
theorem runMedia_snd_eq (vad : List Nat → Except Unit Bool) :
    ∀ (chunks : List (List Nat)) (s : SessionState),
      (runMedia vad s chunks).2
        = schedFlags s.processing s.buffer.length (chunks.map List.length) := by
  intro chunks
  induction chunks with
  | nil => intro s; rfl
  | cons c rest ih =>
    intro s
    simp only [runMedia, List.map_cons, schedFlags]
    rw [onMediaPcm_snd vad 0 s c, ih, onMediaPcm_fst_processing, onMediaPcm_fst_buffer,
      List.length_append]

/-- While the running buffer length stays strictly below the threshold, no
flag is set. -/
theorem schedFlags_all_false (proc : Bool) :
    ∀ (ns : List Nat) (len : Nat), len + ns.sum < BUFFER_TRIGGER_BYTES →
      ∀ f ∈ schedFlags proc len ns, f = false := by
  intro ns
  induction ns with
  | nil =>
    intro len h f hf
    simp [schedFlags] at hf
  | cons n rest ih =>
    intro len h f hf
    simp only [schedFlags, List.mem_cons] at hf
    rcases hf with hf | hf
    · subst hf
      have hlt : ¬ (BUFFER_TRIGGER_BYTES ≤ len + n) := by
        simp only [List.sum_cons, BUFFER_TRIGGER_BYTES] at h ⊢
        omega
      simp [hlt]
    · refine ih (len + n) ?_ f hf
      simp only [List.sum_cons] at h
      omega

/-- C6: no turn is scheduled while the accumulated buffer stays below 25,600
bytes; appending seven 4,000-byte chunks to a fresh session schedules a turn
exactly at the 7th chunk; and a triggered turn clears the buffer as soon as
the audio is handed off to the WAV encoder. -/
theorem C6_size_trigger_behavior :
    (∀ (vad : List Nat → Except Unit Bool) (s : SessionState) (chunks : List (List Nat)),
      s.buffer.length + chunkTotal chunks < BUFFER_TRIGGER_BYTES →
      ∀ f ∈ (runMedia vad s chunks).2, f = false) ∧
    (∀ (vad : List Nat → Except Unit Bool) (c : List Nat), c.length = 4000 →
      (runMedia vad freshSessionState (List.replicate 7 c)).2
        = [false, false, false, false, false, false, true]) ∧
    (∀ (o : TurnOracles) (m : Nat) (s : SessionState) (w : String),
      s.buffer.length ≠ 0 → o.saveWav s.buffer = Except.ok w →
      (processTurnBody o m s).state.buffer = []) := by
  refine ⟨?_, ?_, ?_⟩
  · intro vad s chunks h f hf
    rw [runMedia_snd_eq] at hf
    refine schedFlags_all_false s.processing (chunks.map List.length) s.buffer.length ?_ f hf
    simpa [chunkTotal] using h
  · intro vad c hc
    rw [runMedia_snd_eq]
    simp only [List.map_replicate, hc, freshSessionState]
    decide
  · intro o m s w hbuf hsave
    simp only [processTurnBody]
    rw [if_neg hbuf, hsave]
    cases hst : stripNonempty (textOf (o.transcribe w))
    · simp [hst]
    · cases hg : o.gen with
      | requestFail => simp [hst, hg]
      | stream deltas midFail =>
        cases midFail
        · simp [hst, hg]
        · simp [hst, hg]

/-- Witness for C6 at concrete below-threshold and at-threshold inputs. -/
theorem C6_size_trigger_behavior_witness :
    (∀ f ∈ (runMedia vadNever oneByteState [[0]]).2, f = false) ∧
    (runMedia vadNever freshSessionState (List.replicate 7 (List.replicate 4000 0))).2
      = [false, false, false, false, false, false, true] ∧
    (processTurnBody oracleAllOk 5 oneByteState).state.buffer = [] := by
  refine ⟨C6_size_trigger_behavior.1 vadNever oneByteState [[0]] (by decide),
    C6_size_trigger_behavior.2.1 vadNever (List.replicate 4000 0) (by rw [List.length_replicate]),
    C6_size_trigger_behavior.2.2 oracleAllOk 5 oneByteState "tmp.wav" (by decide) rfl⟩

/-- C8: the voice-activity detector is total — any input shorter than one
480-byte frame yields `false`, a raising VAD backend also yields `false`, and
`true` is reported only when the backend classified the frame as speech. -/
theorem C8_vad_total (vad : List Nat → Except Unit Bool) (pcm : List Nat) :
    (pcm.length < FRAME_BYTES → is_speech_present vad pcm = false) ∧
    (vad (pcm.take FRAME_BYTES) = Except.error () → is_speech_present vad pcm = false) ∧
    (is_speech_present vad pcm = true → vad (pcm.take FRAME_BYTES) = Except.ok true) := by
  refine ⟨fun h => ?_, fun h => ?_, fun h => ?_⟩
  · simp [is_speech_present, h]
  · unfold is_speech_present
    rw [h]
    split <;> rfl
  · unfold is_speech_present at h
    by_cases hl : pcm.length < FRAME_BYTES
    · rw [if_pos hl] at h
      cases h
    · rw [if_neg hl] at h
      cases hv : vad (pcm.take FRAME_BYTES) with
      | ok b =>
        rw [hv] at h
        have hb : b = true := h
        rw [hb]
      | error e =>
        rw [hv] at h
        have hb : false = true := h
        exact Bool.noConfusion hb

/-- Witness for C8: a short frame, a raising backend, and a speech-reporting
backend. -/
theorem C8_vad_total_witness :
    is_speech_present (fun _ => Except.error ()) [] = false ∧
    is_speech_present (fun _ => Except.error ()) (List.replicate 480 0) = false ∧
    (fun _ : List Nat => (Except.ok true : Except Unit Bool)) ((List.replicate 480 0).take FRAME_BYTES)
      = Except.ok true := by
  refine ⟨(C8_vad_total (fun _ => Except.error ()) []).1 (by decide),
    (C8_vad_total (fun _ => Except.error ()) (List.replicate 480 0)).2.1 rfl,
    (C8_vad_total (fun _ => (Except.ok true : Except Unit Bool)) (List.replicate 480 0)).2.2 ?_⟩
  unfold is_speech_present
  rw [if_neg (by rw [List.length_replicate]; exact Nat.lt_irrefl 480)]

/-- Lookup after Python dict assignment yields the assigned value. -/
theorem dictGet_dictSet (l : List (String × PySession)) (k : String) (v : PySession) :
    dictGet (dictSet l k v) k = some v := by
  induction l with
  | nil => simp [dictSet, dictGet]
  | cons p rest ih =>
    obtain ⟨k0, v0⟩ := p
    by_cases hk : k0 = k
    · simp [dictSet, dictGet, hk]
    · simp [dictSet, dictGet, hk, ih]

/-- C10: `create_session` on an already-registered call sid raises no error
and silently replaces the existing session: the registry maps the sid to the
newly constructed session, and `get_session` returns the new session rather
than any different old one. -/
theorem C10_create_session_replaces (m : SessionManager) (cid : String) (ws : Nat)
    (old : PySession) (_hold : get_session m cid = some old) :
    (create_session m cid ws).2 = mkSession cid ws ∧
    get_session (create_session m cid ws).1 cid = some (mkSession cid ws) ∧
    (old ≠ mkSession cid ws → get_session (create_session m cid ws).1 cid ≠ some old) := by
  refine ⟨rfl, ?_, ?_⟩
  · exact dictGet_dictSet m.sessions cid (mkSession cid ws)
  · intro hne hcon
    have h2 := dictGet_dictSet m.sessions cid (mkSession cid ws)
    rw [show get_session (create_session m cid ws).1 cid
        = dictGet (dictSet m.sessions cid (mkSession cid ws)) cid from rfl, h2] at hcon
    exact hne (Option.some.inj hcon).symm

/-- Witness for C10: replacing the registered session for `"CA1"`. -/
theorem C10_create_session_replaces_witness :
    (create_session managerWithCA1 "CA1" 9).2 = mkSession "CA1" 9 ∧
    get_session (create_session managerWithCA1 "CA1" 9).1 "CA1" = some (mkSession "CA1" 9) ∧
    get_session (create_session managerWithCA1 "CA1" 9).1 "CA1" ≠ some (mkSession "CA1" 7) := by
  have h := C10_create_session_replaces managerWithCA1 "CA1" 9 (mkSession "CA1" 7) (by decide)
  exact ⟨h.1, h.2.1, h.2.2 (by decide)⟩

end AsrPipeline
